import Mathlib

/-!
Verification of the va-call-trainer turn-orchestration pipeline and the
client recording state machine, shallowly embedded from the repository
sources:

* src/app/types/config.ts        (ClinicServices, ClinicConfig)
* src/app/api/voice-turn/route.ts (buildPatientSystemPrompt, POST)
* the training page client component (TrainPage: ensureRecorderAndStart,
  handleStartTalking, handleStopTalking, sendTurnToBackend)

External capabilities (the JSON.parse builtin, the three OpenAI calls,
getUserMedia) are modelled as parameters/outcomes supplied per invocation;
everything the repository itself computes is translated directly.
-/

set_option maxHeartbeats 1000000
set_option maxRecDepth 20000

namespace VCT

/-- Service flags of the clinic, from src/app/types/config.ts. -/
structure ClinicServices where
  decompression : Bool
  classIVLaser : Bool
  shockwave : Bool
  deriving DecidableEq, Repr

/-- Clinic configuration, from src/app/types/config.ts.  The TypeScript
field firstVisitCost is a number; it is modelled as an integer (the setup
form only produces non-negative integers). -/
structure ClinicConfig where
  clinicName : String
  doctorName : String
  firstVisitCost : Int
  address : String
  officeHours : String
  services : ClinicServices
  deriving DecidableEq, Repr

/-- Conversation roles, from the Role type in route.ts. -/
inductive Role where
  | staff
  | patient
  deriving DecidableEq, Repr

/-- One conversation turn, from the Turn type in route.ts. -/
structure Turn where
  role : Role
  text : String
  deriving DecidableEq, Repr

/-- Roles of the chat-completion message list built in route.ts. -/
inductive ChatRole where
  | system
  | user
  | assistant
  deriving DecidableEq, Repr

/-- One chat-completion message, as built in route.ts. -/
structure ChatMessage where
  role : ChatRole
  content : String
  deriving DecidableEq, Repr

/-- Models JS String.prototype.trim: strip leading and trailing
whitespace. -/
def jsTrim (s : String) : String :=
  String.mk ((s.data.dropWhile Char.isWhitespace).reverse.dropWhile
    Char.isWhitespace).reverse

/-- The textual service list of the system prompt, from route.ts line 27:
always "chiropractic", then one fixed phrase per enabled service flag, in
the fixed order decompression, Class IV laser, shockwave. -/
def servicesList (s : ClinicServices) : String :=
  "chiropractic"
  ++ (if s.decompression then ", decompression" else "")
  ++ (if s.classIVLaser then ", Class IV laser" else "")
  ++ (if s.shockwave then ", shockwave" else "")

/-- The system instruction of the patient simulator, from
buildPatientSystemPrompt in route.ts (lines 17-36), as the template
literal concatenation. -/
def buildPatientSystemPrompt (clinic : ClinicConfig) (mode : String) : String :=
  "\nYou are simulating a new patient calling a chiropractic office.\n\nClinic:\n- Name: "
  ++ clinic.clinicName
  ++ "\n- Doctor: "
  ++ clinic.doctorName
  ++ "\n- First visit cost: $"
  ++ toString clinic.firstVisitCost
  ++ "\n- Address: "
  ++ clinic.address
  ++ "\n- Office hours: "
  ++ clinic.officeHours
  ++ "\n- Services: "
  ++ servicesList clinic.services
  ++ "\n\nMode: "
  ++ mode
  ++ "\n\nRules:\n- Keep messages short (1–2 sentences).\n- You only reply as the patient.\n- No internal thoughts.\n"

/-- Outcome of one external service call: it either produces a value or
fails (throws / rejects). -/
inductive StageResult (α : Type) where
  | ok (a : α)
  | fail
  deriving DecidableEq, Repr

/-- The external collaborators of one POST invocation: the JSON.parse
builtin applied to the two serialized fields, and the three OpenAI
capabilities (transcription, chat completion, speech synthesis), each
modelled as a function of the argument the route passes it. -/
structure Env where
  parseClinic : String → Option ClinicConfig
  parseTurns : String → Option (List Turn)
  transcribe : List Nat → StageResult String
  chat : List ChatMessage → StageResult (Option String)
  speech : String → StageResult (List Nat)

/-- A multipart form submission to /api/voice-turn: each field is absent
(form.get returns null) or present with its raw value.  The audio field
is a binary blob (list of bytes). -/
structure RequestForm where
  audio : Option (List Nat)
  mode : Option String
  clinicConfig : Option String
  turns : Option String
  deriving Repr

/-- The JSON response of the route: success carries staffText,
patientText, audioBase64 and the updated turns; failure carries an HTTP
status and an error message (and no turns). -/
inductive Response where
  | ok (staffText patientText audioBase64 : String) (turns : List Turn)
  | error (status : Nat) (msg : String)
  deriving DecidableEq, Repr

/-- HTTP status of a response (NextResponse.json defaults to 200). -/
def statusOf : Response → Nat
  | .ok _ _ _ _ => 200
  | .error s _ => s

/-- Record of one external OpenAI call made by the route, with the
argument it was given. -/
inductive Call where
  | transcribeCall (audio : List Nat)
  | chatCall (messages : List ChatMessage)
  | speechCall (input : String)
  deriving DecidableEq, Repr

/-- JS truthiness test for a form string field: null and the empty string
are falsy. -/
def strFalsy : Option String → Bool
  | none => true
  | some s => s = ""

/-- route.ts line 43: const mode = (form.get("mode") as string) || "easy". -/
def modeOf : Option String → String
  | none => "easy"
  | some s => if s = "" then "easy" else s

/-- route.ts lines 84-85: the first chat choice content, optionally
chained and trimmed, with the fixed filler substituted for a missing or
falsy (empty) result. -/
def patientTextOf : Option String → String
  | none => "Okay, go ahead."
  | some c => if jsTrim c = "" then "Okay, go ahead." else jsTrim c

/-- route.ts line 73: staff turns map to the user role, patient turns to
the assistant role. -/
def turnRole (r : Role) : ChatRole :=
  if r = Role.staff then ChatRole.user else ChatRole.assistant

/-- route.ts lines 70-76: the chat message list, the system prompt
followed by the history mapped to chat roles. -/
def mkMessages (systemPrompt : String) (updatedTurns : List Turn) : List ChatMessage :=
  ⟨ChatRole.system, systemPrompt⟩ ::
    updatedTurns.map (fun t => ⟨turnRole t.role, t.text⟩)

/-- The base64 alphabet. -/
def base64Table : List Char :=
  "ABCDEFGHIJKLMNOPQRSTUVWXYZabcdefghijklmnopqrstuvwxyz0123456789+/".data

/-- One base64 digit. -/
def base64Char (n : Nat) : Char := base64Table.getD n 'A'

/-- Standard base64 encoding of a byte list, modelling
Buffer.toString("base64") in route.ts line 101. -/
def base64Encode : List Nat → String
  | [] => ""
  | [b1] =>
    let b1 := b1 % 256
    String.mk [base64Char (b1 / 4), base64Char (b1 % 4 * 16)] ++ "=="
  | [b1, b2] =>
    let b1 := b1 % 256
    let b2 := b2 % 256
    String.mk [base64Char (b1 / 4), base64Char (b1 % 4 * 16 + b2 / 16),
      base64Char (b2 % 16 * 4)] ++ "="
  | b1 :: b2 :: b3 :: rest =>
    let c1 := b1 % 256
    let c2 := b2 % 256
    let c3 := b3 % 256
    String.mk [base64Char (c1 / 4), base64Char (c1 % 4 * 16 + c2 / 16),
      base64Char (c2 % 16 * 4 + c3 / 64), base64Char (c3 % 64)]
      ++ base64Encode rest

/-- The response of the route when a required form field is missing,
route.ts lines 47-52. -/
def missingFieldsResponse : Response :=
  Response.error 400 "Missing audio, clinicConfig, or turns"

/-- The catch-all response of the route, route.ts lines 109-112. -/
def serverErrorResponse : Response :=
  Response.error 500 "Server error"

/-- The POST handler of /api/voice-turn (route.ts lines 38-113),
translated statement by statement.  It returns the response together
with the list of external OpenAI calls the invocation performed.  A
throw anywhere inside the try block (JSON.parse failure or a rejected
external call) lands in the catch, which answers 500 "Server error". -/
def POST (env : Env) (f : RequestForm) : Response × List Call :=
  let mode := modeOf f.mode
  match f.audio with
  | none => (missingFieldsResponse, [])
  | some audioFile =>
    if strFalsy f.clinicConfig || strFalsy f.turns then
      (missingFieldsResponse, [])
    else
      match env.parseClinic (f.clinicConfig.getD "") with
      | none => (serverErrorResponse, [])
      | some clinicConfig =>
        match env.parseTurns (f.turns.getD "") with
        | none => (serverErrorResponse, [])
        | some turns =>
          match env.transcribe audioFile with
          | .fail => (serverErrorResponse, [Call.transcribeCall audioFile])
          | .ok rawText =>
            let staffText := jsTrim rawText
            let updatedTurns := turns ++ [⟨Role.staff, staffText⟩]
            let systemPrompt := buildPatientSystemPrompt clinicConfig mode
            let messages := mkMessages systemPrompt updatedTurns
            match env.chat messages with
            | .fail =>
              (serverErrorResponse,
               [Call.transcribeCall audioFile, Call.chatCall messages])
            | .ok content =>
              let patientText := patientTextOf content
              let finalTurns := updatedTurns ++ [⟨Role.patient, patientText⟩]
              match env.speech patientText with
              | .fail =>
                (serverErrorResponse,
                 [Call.transcribeCall audioFile, Call.chatCall messages,
                  Call.speechCall patientText])
              | .ok bytes =>
                (Response.ok staffText patientText (base64Encode bytes) finalTurns,
                 [Call.transcribeCall audioFile, Call.chatCall messages,
                  Call.speechCall patientText])

/-! Substring machinery used to state the prompt-content claims. -/

/-- Boolean list-prefix test. -/
def listPrefixB : List Char → List Char → Bool
  | [], _ => true
  | _ :: _, [] => false
  | a :: as, b :: bs => a = b && listPrefixB as bs

/-- Boolean contiguous-sublist test. -/
def listSubB (p : List Char) : List Char → Bool
  | [] => listPrefixB p []
  | c :: t => listPrefixB p (c :: t) || listSubB p t

/-- p occurs as a contiguous substring of s. -/
def SubstrOf (p s : String) : Prop :=
  ∃ a b : List Char, a ++ p.data ++ b = s.data

/-- Boolean substring test on strings. -/
def hasSubstr (s p : String) : Bool := listSubB p.data s.data

theorem listPrefixB_iff (p l : List Char) :
    listPrefixB p l = true ↔ ∃ r, p ++ r = l := by
  induction p generalizing l with
  | nil => simp [listPrefixB]
  | cons a as ih =>
    cases l with
    | nil => simp [listPrefixB]
    | cons b bs =>
      simp only [listPrefixB, Bool.and_eq_true, decide_eq_true_eq, ih]
      constructor
      · rintro ⟨rfl, r, rfl⟩
        exact ⟨r, rfl⟩
      · rintro ⟨r, hr⟩
        injection hr with h1 h2
        exact ⟨h1, r, h2⟩

theorem listSubB_iff (p l : List Char) :
    listSubB p l = true ↔ ∃ a b, a ++ p ++ b = l := by
  induction l with
  | nil =>
    simp only [listSubB, listPrefixB_iff]
    constructor
    · rintro ⟨r, hr⟩
      exact ⟨[], r, by simpa using hr⟩
    · rintro ⟨a, b, h⟩
      rcases List.append_eq_nil.mp (List.append_eq_nil.mp h).1 with ⟨rfl, rfl⟩
      exact ⟨b, h⟩
  | cons c t ih =>
    simp only [listSubB, Bool.or_eq_true, listPrefixB_iff, ih]
    constructor
    · rintro (⟨r, hr⟩ | ⟨a, b, h⟩)
      · exact ⟨[], r, by simpa using hr⟩
      · exact ⟨c :: a, b, by simp [← h]⟩
    · rintro ⟨a, b, h⟩
      cases a with
      | nil => exact Or.inl ⟨b, by simpa using h⟩
      | cons a0 as =>
        injection h with h1 h2
        exact Or.inr ⟨as, b, h2⟩

theorem hasSubstr_iff (s p : String) : hasSubstr s p = true ↔ SubstrOf p s :=
  listSubB_iff p.data s.data

instance (p s : String) : Decidable (SubstrOf p s) :=
  decidable_of_iff (hasSubstr s p = true) (hasSubstr_iff s p)

theorem substrOf_refl (p : String) : SubstrOf p p :=
  ⟨[], [], by simp⟩

theorem SubstrOf.appendR {p s : String} (h : SubstrOf p s) (t : String) :
    SubstrOf p (s ++ t) := by
  obtain ⟨a, b, hab⟩ := h
  exact ⟨a, b ++ t.data, by simp [String.data_append, ← hab]⟩

theorem SubstrOf.appendL {p s : String} (h : SubstrOf p s) (t : String) :
    SubstrOf p (t ++ s) := by
  obtain ⟨a, b, hab⟩ := h
  exact ⟨t.data ++ a, b, by simp [String.data_append, ← hab]⟩

/-! The client recording state machine, from the training page component. -/

/-- Observable side effects of the client handlers. -/
inductive ClientAction where
  | alertMsg (msg : String)
  | redirectTo (path : String)
  | getUserMedia
  | recorderStart
  | recorderStop
  | playAudio (audioBase64 : String)
  deriving DecidableEq, Repr

/-- The state of the training page: the React state (clinic, turns,
isRecording, isBusy, error), the recorder refs (recorderExists for
mediaRecorderRef.current, recorderActive for its non-inactive state), a
counter of in-flight backend calls, and the fixed browser environment
(whether navigator.mediaDevices exists and whether getUserMedia would
succeed). -/
structure ClientState where
  clinic : Option ClinicConfig
  turns : List Turn
  isRecording : Bool
  isBusy : Bool
  errorMsg : Option String
  recorderExists : Bool
  recorderActive : Bool
  inFlight : Nat
  mediaSupported : Bool
  micOk : Bool
  deriving DecidableEq, Repr

/-- ensureRecorderAndStart (TrainPage lines 60-114): clear the error;
refuse and redirect to /setup when no clinic profile is loaded; refuse
when the browser lacks media devices; otherwise reuse or acquire the
recorder and start recording. -/
def ensureRecorderAndStart (s : ClientState) : ClientState × List ClientAction :=
  let s0 := { s with errorMsg := none }
  match s0.clinic with
  | none =>
    ({ s0 with
        errorMsg := some "Clinic setup is missing. Go back and fill out Setup first." },
     [ClientAction.alertMsg "Please complete the clinic Setup page before training.",
      ClientAction.redirectTo "/setup"])
  | some _ =>
    if !s0.mediaSupported then
      ({ s0 with
          errorMsg := some "This browser does not support microphone recording." },
       [ClientAction.alertMsg "Your browser does not support microphone recording."])
    else if s0.recorderExists then
      ({ s0 with isRecording := true, recorderActive := true },
       [ClientAction.recorderStart])
    else if s0.micOk then
      ({ s0 with
          recorderExists := true,
          recorderActive := true,
          isRecording := true },
       [ClientAction.getUserMedia, ClientAction.recorderStart])
    else
      ({ s0 with
          errorMsg := some "Could not access microphone. Check browser permissions." },
       [ClientAction.getUserMedia,
        ClientAction.alertMsg "Could not access microphone. Please allow mic access in your browser."])

/-- handleStartTalking (TrainPage lines 172-175): while the backend is
responding (isBusy) the press is ignored entirely. -/
def handleStartTalking (s : ClientState) : ClientState × List ClientAction :=
  if s.isBusy then (s, []) else ensureRecorderAndStart s

/-- The synchronous prefix of sendTurnToBackend (TrainPage lines
116-121): bail out if no clinic, otherwise mark busy, clear the error
and put one fetch in flight. -/
def beginSend (s : ClientState) : ClientState :=
  match s.clinic with
  | none => s
  | some _ =>
    { s with
        isBusy := true,
        errorMsg := none,
        inFlight := s.inFlight + 1 }

/-- handleStopTalking (TrainPage lines 177-186) together with the
recorder onstop callback (lines 99-103): stopping an active recorder
fires onstop, which submits the buffered audio via sendTurnToBackend.
The browser event loop delivers onstop before any further user input
event, so the stop step composes the two. -/
def stopStep (s : ClientState) : ClientState × List ClientAction :=
  if !s.recorderExists then
    ({ s with isRecording := false }, [])
  else if s.recorderActive then
    (beginSend { s with isRecording := false, recorderActive := false },
     [ClientAction.recorderStop])
  else
    ({ s with isRecording := false }, [])

/-- What the fetch of sendTurnToBackend produced: a server response or a
network failure (the catch at lines 163-165). -/
inductive FetchOutcome where
  | response (r : Response)
  | networkError
  deriving DecidableEq, Repr

/-- The continuation of sendTurnToBackend once the fetch settles
(TrainPage lines 134-168): on a non-ok response set the error and leave
the turns unchanged; on a network error likewise; on success replace the
turns with the returned history and play the reply audio when non-empty.
The finally block clears isBusy.  When nothing is in flight the event
cannot occur and the state is unchanged. -/
def finishSend (s : ClientState) (o : FetchOutcome) : ClientState × List ClientAction :=
  if s.inFlight = 0 then (s, [])
  else
    match o with
    | .networkError =>
      ({ s with
          errorMsg := some "Network error while talking to /api/voice-turn.",
          isBusy := false,
          inFlight := s.inFlight - 1 }, [])
    | .response r =>
      match r with
      | .error _ _ =>
        ({ s with
            errorMsg := some "Server error from /api/voice-turn.",
            isBusy := false,
            inFlight := s.inFlight - 1 }, [])
      | .ok _ _ audioBase64 newTurns =>
        ({ s with
            turns := newTurns,
            isBusy := false,
            inFlight := s.inFlight - 1 },
         if audioBase64 = "" then [] else [ClientAction.playAudio audioBase64])

/-- Events driving the client state machine. -/
inductive Ev where
  | start
  | stop
  | settled (o : FetchOutcome)
  deriving DecidableEq, Repr

/-- One event step: the handler it invokes and the actions it emits. -/
def handleEvent (s : ClientState) : Ev → ClientState × List ClientAction
  | .start => handleStartTalking s
  | .stop => stopStep s
  | .settled o => finishSend s o

/-- State after one event. -/
def step (s : ClientState) (e : Ev) : ClientState := (handleEvent s e).1

/-- The state of a freshly mounted training page: the clinic profile as
loaded from localStorage, empty history, nothing recording, busy or in
flight, no recorder yet. -/
def initState (clinic : Option ClinicConfig) (mediaSupported micOk : Bool) :
    ClientState :=
  ⟨clinic, [], false, false, none, false, false, 0, mediaSupported, micOk⟩

/-- State after a sequence of events. -/
def runEvents (s : ClientState) (evs : List Ev) : ClientState :=
  evs.foldl step s

/-- One event step carrying the accumulated action list. -/
def stepA (p : ClientState × List ClientAction) (e : Ev) :
    ClientState × List ClientAction :=
  ((handleEvent p.1 e).1, p.2 ++ (handleEvent p.1 e).2)

/-- All actions emitted over a sequence of events. -/
def runActions (s : ClientState) (evs : List Ev) : List ClientAction :=
  (evs.foldl stepA (s, [])).2

/-! Concrete fixtures used by witnesses and counterexamples. -/

/-- A concrete clinic profile: first-visit price 75, decompression
enabled, Class IV laser and shockwave disabled (the end-to-end profile
of the spec). -/
def cfg0 : ClinicConfig :=
  ⟨"Brighton Spine and Wellness", "Dr. Smith", 75, "123 Main St", "Mon-Fri 9-5",
   ⟨true, false, false⟩⟩

/-- An environment in which parsing and all three external stages
succeed. -/
def envOk : Env :=
  ⟨fun _ => some cfg0,
   fun _ => some [],
   fun _ => StageResult.ok "  Hi, we would love to get you scheduled  ",
   fun _ => StageResult.ok (some " Sure, what do you charge? "),
   fun _ => StageResult.ok [77, 97, 110]⟩

/-- An environment in which the transcription stage fails. -/
def envFailT : Env :=
  ⟨fun _ => some cfg0,
   fun _ => some [],
   fun _ => StageResult.fail,
   fun _ => StageResult.fail,
   fun _ => StageResult.fail⟩

/-- An environment in which JSON.parse of the clinicConfig field throws
(the payload is not valid JSON for the expected shape). -/
def envParseFail : Env :=
  ⟨fun _ => none,
   fun _ => none,
   fun _ => StageResult.fail,
   fun _ => StageResult.fail,
   fun _ => StageResult.fail⟩

/-- A fully populated form submission. -/
def form0 : RequestForm :=
  ⟨some [1, 2, 3], some "skeptical", some "cfg-json", some "turns-json"⟩

/-- A form submission with the audio field absent. -/
def formNoAudio : RequestForm :=
  ⟨none, none, some "cfg-json", some "turns-json"⟩

/-! Shared helper lemmas about POST. -/

/-- POST depends on the mode field only through modeOf. -/
theorem POST_mode_congr (env : Env) (f : RequestForm) (m1 m2 : Option String)
    (h : modeOf m1 = modeOf m2) :
    POST env { f with mode := m1 } = POST env { f with mode := m2 } := by
  simp only [POST]
  rw [h]

/-- The full success equation of POST: with all fields present, both
payloads parsed and all three stages succeeding, the route answers 200
with the trimmed transcription, the generated patient text and the
history extended by the staff turn then the patient turn, having called
the three services in order. -/
theorem POST_ok_eq
    (env : Env) (f : RequestForm) (audioFile : List Nat) (cj tj : String)
    (cfg : ClinicConfig) (hist : List Turn) (rawText : String)
    (content : Option String) (bytes : List Nat)
    (ha : f.audio = some audioFile)
    (hc : f.clinicConfig = some cj) (hc0 : cj ≠ "")
    (ht : f.turns = some tj) (ht0 : tj ≠ "")
    (hpc : env.parseClinic cj = some cfg)
    (hpt : env.parseTurns tj = some hist)
    (htr : env.transcribe audioFile = StageResult.ok rawText)
    (hch : env.chat (mkMessages (buildPatientSystemPrompt cfg (modeOf f.mode))
        (hist ++ [⟨Role.staff, jsTrim rawText⟩])) = StageResult.ok content)
    (hsp : env.speech (patientTextOf content) = StageResult.ok bytes) :
    POST env f =
      (Response.ok (jsTrim rawText) (patientTextOf content) (base64Encode bytes)
        (hist ++ [⟨Role.staff, jsTrim rawText⟩, ⟨Role.patient, patientTextOf content⟩]),
       [Call.transcribeCall audioFile,
        Call.chatCall (mkMessages (buildPatientSystemPrompt cfg (modeOf f.mode))
          (hist ++ [⟨Role.staff, jsTrim rawText⟩])),
        Call.speechCall (patientTextOf content)]) := by
  simp [POST, ha, hc, ht, hpc, hpt, htr, hch, hsp, strFalsy, hc0, ht0]

/-! Claim theorems. -/

/-- C10: a mode form field that is present but equal to the empty string
is treated exactly as an absent mode field: the default "easy" is used,
no error is raised, and the two requests produce identical behavior. -/
theorem emptyModeFieldEqualsAbsentMode (env : Env) (f : RequestForm) :
    POST env { f with mode := some "" } = POST env { f with mode := none } :=
  POST_mode_congr env f (some "") none (by decide)

/-- C7: a request in which the audio, clinicConfig, or turns field is
absent (or, for the string fields, JS-falsy) is answered with the 400
client-error response and its short message, with no external call made;
and the mode field may be absent without causing an error, since an
absent mode behaves identically to the default mode "easy". -/
theorem missingFieldsRejectedBeforeExternalCalls (env : Env) (f : RequestForm)
    (h : f.audio = none ∨ strFalsy f.clinicConfig = true ∨ strFalsy f.turns = true) :
    POST env f = (missingFieldsResponse, [])
    ∧ statusOf missingFieldsResponse = 400
    ∧ ∀ (env2 : Env) (f2 : RequestForm),
        POST env2 { f2 with mode := none } = POST env2 { f2 with mode := some "easy" } := by
  refine ⟨?_, rfl, fun env2 f2 => POST_mode_congr env2 f2 none (some "easy") (by decide)⟩
  cases haud : f.audio with
  | none => simp [POST, haud]
  | some a =>
    rcases h with h | h | h
    · rw [haud] at h
      exact absurd h (by simp)
    · simp [POST, haud, h]
    · simp [POST, haud, h]

/-- C7 witness: a request with no audio field is rejected with the 400
response and an empty call trace, and absent mode equals explicit
"easy" mode on a fully populated form. -/
theorem missingFieldsRejectedBeforeExternalCallsWitness :
    POST envOk formNoAudio = (missingFieldsResponse, [])
    ∧ POST envOk { form0 with mode := none } = POST envOk { form0 with mode := some "easy" } := by
  have h := missingFieldsRejectedBeforeExternalCalls envOk formNoAudio (Or.inl rfl)
  exact ⟨h.1, h.2.2 envOk form0⟩

/-- C3 counterexample: with the mode field present and equal to "bogus"
(an unrecognized value), the endpoint passes the string through as-is
(modeOf does not coerce it) and the system instruction built for the
text-generation call differs from the one built for the default mode
"easy" (an absent mode field). -/
theorem modeBogusPromptDiffersFromDefault :
    modeOf (some "bogus") = "bogus"
    ∧ buildPatientSystemPrompt cfg0 (modeOf (some "bogus"))
        ≠ buildPatientSystemPrompt cfg0 (modeOf none) := by
  constructor
  · decide
  · decide

/-- C3 amended: for an unrecognized non-empty mode value the endpoint
raises no error, but it does not coerce the value to the default either:
the raw string is substituted verbatim into the system instruction, and
the instruction coincides with the default mode's only when the mode
string is "easy" itself.  (The coercion of unrecognized modes to "easy"
happens in the client page before submission, not at the endpoint.) -/
theorem unrecognizedModePassedVerbatim (c : ClinicConfig) (m : String)
    (hm : m ≠ "") :
    modeOf (some m) = m
    ∧ (buildPatientSystemPrompt c m = buildPatientSystemPrompt c "easy" ↔ m = "easy") := by
  refine ⟨by simp [modeOf, hm], ?_, fun hm2 => by rw [hm2]⟩
  intro h
  have h1 := congrArg String.data h
  simp only [buildPatientSystemPrompt, String.data_append, List.append_assoc] at h1
  iterate 13 replace h1 := List.append_cancel_left h1
  replace h1 := List.append_cancel_right h1
  obtain ⟨md⟩ := m
  exact congrArg String.mk h1

/-- C3 witness: at mode "bogus" and the concrete profile, the mode is
passed through verbatim and the instruction equals the default one only
if "bogus" were "easy" (which it is not). -/
theorem unrecognizedModePassedVerbatimWitness :
    modeOf (some "bogus") = "bogus"
    ∧ (buildPatientSystemPrompt cfg0 "bogus" = buildPatientSystemPrompt cfg0 "easy"
        ↔ "bogus" = "easy") :=
  unrecognizedModePassedVerbatim cfg0 "bogus" (by decide)

/-- C4 counterexample: a request whose three required fields are all
present but whose clinicConfig payload fails to parse is answered with
the 500 "Server error" response — the very same response used for
external-service failure — and not with the 400 client-input response. -/
theorem invalidJsonYieldsServerError500 :
    POST envParseFail form0 = (serverErrorResponse, [])
    ∧ statusOf serverErrorResponse = 500
    ∧ serverErrorResponse ≠ missingFieldsResponse := by
  refine ⟨by decide, rfl, by decide⟩

/-- C4 amended: a request whose clinicConfig or turns field is present
but not valid JSON for the expected shape is not rejected with a
distinct client-input error: the JSON.parse exception lands in the
generic catch, so the caller receives the same opaque 500 "Server
error" response used for external-service failure (and no external call
is made). -/
theorem invalidJsonCaughtAsServerError (env : Env) (f : RequestForm)
    (audioFile : List Nat)
    (ha : f.audio = some audioFile)
    (hc0 : strFalsy f.clinicConfig = false) (ht0 : strFalsy f.turns = false)
    (hbad : env.parseClinic (f.clinicConfig.getD "") = none
      ∨ ∃ cfg, env.parseClinic (f.clinicConfig.getD "") = some cfg
          ∧ env.parseTurns (f.turns.getD "") = none) :
    POST env f = (serverErrorResponse, [])
    ∧ serverErrorResponse ≠ missingFieldsResponse := by
  refine ⟨?_, by decide⟩
  rcases hbad with h | ⟨cfg, h1, h2⟩
  · simp [POST, ha, hc0, ht0, h]
  · simp [POST, ha, hc0, ht0, h1, h2]

/-- C4 witness: the amended behavior at a concrete request whose
payloads fail to parse. -/
theorem invalidJsonCaughtAsServerErrorWitness :
    POST envParseFail form0 = (serverErrorResponse, [])
    ∧ serverErrorResponse ≠ missingFieldsResponse :=
  invalidJsonCaughtAsServerError envParseFail form0 [1, 2, 3] rfl rfl rfl
    (Or.inl rfl)

/-- C5: building the system instruction is a pure function of the
profile and mode that contains the clinic name, the practitioner name,
the first-visit price prefixed with a dollar sign, the address and the
office hours; the services list contains each service phrase exactly
when its flag is enabled, in the fixed order decompression, Class IV
laser, shockwave; and for the concrete profile with firstVisitCost 75,
decompression on, laser and shockwave off, the full instruction contains
"$75" and "decompression" but neither "laser" nor "shockwave". -/
theorem systemPromptContentAndServiceFlags :
    (∀ (c : ClinicConfig) (m : String),
      SubstrOf c.clinicName (buildPatientSystemPrompt c m)
      ∧ SubstrOf c.doctorName (buildPatientSystemPrompt c m)
      ∧ SubstrOf ("$" ++ toString c.firstVisitCost) (buildPatientSystemPrompt c m)
      ∧ SubstrOf c.address (buildPatientSystemPrompt c m)
      ∧ SubstrOf c.officeHours (buildPatientSystemPrompt c m)
      ∧ SubstrOf (servicesList c.services) (buildPatientSystemPrompt c m))
    ∧ (∀ d l sh : Bool,
        hasSubstr (servicesList ⟨d, l, sh⟩) "decompression" = d
        ∧ hasSubstr (servicesList ⟨d, l, sh⟩) "laser" = l
        ∧ hasSubstr (servicesList ⟨d, l, sh⟩) "shockwave" = sh)
    ∧ servicesList ⟨true, true, true⟩
        = "chiropractic, decompression, Class IV laser, shockwave"
    ∧ (hasSubstr (buildPatientSystemPrompt cfg0 "skeptical") "$75" = true
       ∧ hasSubstr (buildPatientSystemPrompt cfg0 "skeptical") "decompression" = true
       ∧ hasSubstr (buildPatientSystemPrompt cfg0 "skeptical") "laser" = false
       ∧ hasSubstr (buildPatientSystemPrompt cfg0 "skeptical") "shockwave" = false) := by
  refine ⟨fun c m => ⟨?_, ?_, ?_, ?_, ?_, ?_⟩, by decide, by decide,
    by decide, by decide, by decide, by decide⟩
  · refine ⟨"\nYou are simulating a new patient calling a chiropractic office.\n\nClinic:\n- Name: ".data,
      ("\n- Doctor: " ++ c.doctorName ++ "\n- First visit cost: $"
        ++ toString c.firstVisitCost ++ "\n- Address: " ++ c.address
        ++ "\n- Office hours: " ++ c.officeHours ++ "\n- Services: "
        ++ servicesList c.services ++ "\n\nMode: " ++ m
        ++ "\n\nRules:\n- Keep messages short (1–2 sentences).\n- You only reply as the patient.\n- No internal thoughts.\n").data, ?_⟩
    simp [buildPatientSystemPrompt, String.data_append, List.append_assoc]
  · refine ⟨("\nYou are simulating a new patient calling a chiropractic office.\n\nClinic:\n- Name: "
        ++ c.clinicName ++ "\n- Doctor: ").data,
      ("\n- First visit cost: $" ++ toString c.firstVisitCost ++ "\n- Address: "
        ++ c.address ++ "\n- Office hours: " ++ c.officeHours ++ "\n- Services: "
        ++ servicesList c.services ++ "\n\nMode: " ++ m
        ++ "\n\nRules:\n- Keep messages short (1–2 sentences).\n- You only reply as the patient.\n- No internal thoughts.\n").data, ?_⟩
    simp [buildPatientSystemPrompt, String.data_append, List.append_assoc]
  · refine ⟨("\nYou are simulating a new patient calling a chiropractic office.\n\nClinic:\n- Name: "
        ++ c.clinicName ++ "\n- Doctor: " ++ c.doctorName
        ++ "\n- First visit cost: ").data,
      ("\n- Address: " ++ c.address ++ "\n- Office hours: " ++ c.officeHours
        ++ "\n- Services: " ++ servicesList c.services ++ "\n\nMode: " ++ m
        ++ "\n\nRules:\n- Keep messages short (1–2 sentences).\n- You only reply as the patient.\n- No internal thoughts.\n").data, ?_⟩
    simp [buildPatientSystemPrompt, String.data_append, List.append_assoc,
      List.cons_append, List.nil_append]
  · refine ⟨("\nYou are simulating a new patient calling a chiropractic office.\n\nClinic:\n- Name: "
        ++ c.clinicName ++ "\n- Doctor: " ++ c.doctorName
        ++ "\n- First visit cost: $" ++ toString c.firstVisitCost
        ++ "\n- Address: ").data,
      ("\n- Office hours: " ++ c.officeHours ++ "\n- Services: "
        ++ servicesList c.services ++ "\n\nMode: " ++ m
        ++ "\n\nRules:\n- Keep messages short (1–2 sentences).\n- You only reply as the patient.\n- No internal thoughts.\n").data, ?_⟩
    simp [buildPatientSystemPrompt, String.data_append, List.append_assoc]
  · refine ⟨("\nYou are simulating a new patient calling a chiropractic office.\n\nClinic:\n- Name: "
        ++ c.clinicName ++ "\n- Doctor: " ++ c.doctorName
        ++ "\n- First visit cost: $" ++ toString c.firstVisitCost
        ++ "\n- Address: " ++ c.address ++ "\n- Office hours: ").data,
      ("\n- Services: " ++ servicesList c.services ++ "\n\nMode: " ++ m
        ++ "\n\nRules:\n- Keep messages short (1–2 sentences).\n- You only reply as the patient.\n- No internal thoughts.\n").data, ?_⟩
    simp [buildPatientSystemPrompt, String.data_append, List.append_assoc]
  · refine ⟨("\nYou are simulating a new patient calling a chiropractic office.\n\nClinic:\n- Name: "
        ++ c.clinicName ++ "\n- Doctor: " ++ c.doctorName
        ++ "\n- First visit cost: $" ++ toString c.firstVisitCost
        ++ "\n- Address: " ++ c.address ++ "\n- Office hours: "
        ++ c.officeHours ++ "\n- Services: ").data,
      ("\n\nMode: " ++ m
        ++ "\n\nRules:\n- Keep messages short (1–2 sentences).\n- You only reply as the patient.\n- No internal thoughts.\n").data, ?_⟩
    simp [buildPatientSystemPrompt, String.data_append, List.append_assoc]

/-- C1: a successful pipeline invocation returns the input history
followed by exactly two new entries — a staff turn carrying the trimmed
transcription (equal to the returned staffText) and then a patient turn
carrying the returned patientText — so the history is exactly two
entries longer and the input history is preserved as a prefix. -/
theorem advanceTurnAppendsExactlyTwo
    (env : Env) (f : RequestForm) (audioFile : List Nat) (cj tj : String)
    (cfg : ClinicConfig) (hist : List Turn) (rawText : String)
    (content : Option String) (bytes : List Nat)
    (ha : f.audio = some audioFile)
    (hc : f.clinicConfig = some cj) (hc0 : cj ≠ "")
    (ht : f.turns = some tj) (ht0 : tj ≠ "")
    (hpc : env.parseClinic cj = some cfg)
    (hpt : env.parseTurns tj = some hist)
    (htr : env.transcribe audioFile = StageResult.ok rawText)
    (hch : env.chat (mkMessages (buildPatientSystemPrompt cfg (modeOf f.mode))
        (hist ++ [⟨Role.staff, jsTrim rawText⟩])) = StageResult.ok content)
    (hsp : env.speech (patientTextOf content) = StageResult.ok bytes) :
    (POST env f).1 = Response.ok (jsTrim rawText) (patientTextOf content)
        (base64Encode bytes)
        (hist ++ [⟨Role.staff, jsTrim rawText⟩, ⟨Role.patient, patientTextOf content⟩])
    ∧ (hist ++ [(⟨Role.staff, jsTrim rawText⟩ : Turn),
        ⟨Role.patient, patientTextOf content⟩]).length = hist.length + 2
    ∧ (hist ++ [(⟨Role.staff, jsTrim rawText⟩ : Turn),
        ⟨Role.patient, patientTextOf content⟩]).take hist.length = hist := by
  have h := POST_ok_eq env f audioFile cj tj cfg hist rawText content bytes
    ha hc hc0 ht ht0 hpc hpt htr hch hsp
  refine ⟨by rw [h], by simp, List.take_left hist _⟩

/-- C1 witness: on a concrete fully valid request the route returns the
trimmed transcription as the staff turn, the trimmed generation as the
patient turn, a correct base64 audio payload, and a history of length
two extending the empty input history. -/
theorem advanceTurnAppendsExactlyTwoWitness :
    (POST envOk form0).1 = Response.ok "Hi, we would love to get you scheduled"
      "Sure, what do you charge?" "TWFu"
      [⟨Role.staff, "Hi, we would love to get you scheduled"⟩,
       ⟨Role.patient, "Sure, what do you charge?"⟩]
    ∧ ([(⟨Role.staff, "Hi, we would love to get you scheduled"⟩ : Turn),
        ⟨Role.patient, "Sure, what do you charge?"⟩]).length = 2 := by
  have h := advanceTurnAppendsExactlyTwo envOk form0 [1, 2, 3] "cfg-json"
    "turns-json" cfg0 [] "  Hi, we would love to get you scheduled  "
    (some " Sure, what do you charge? ") [77, 97, 110]
    rfl rfl (by decide) rfl (by decide) rfl rfl rfl rfl rfl
  exact ⟨h.1.trans (by decide), by decide⟩

/-- C2: if any of the three external stages fails, the route answers
with the single opaque 500 "Server error" response — the same constant
response regardless of which stage failed, exposing no internal detail —
carrying no turn history; and on the client, applying that response
leaves the in-memory history unchanged from the input, so no partial
append of only the staff turn is ever surfaced. -/
theorem stageFailureYieldsOpaqueServerError
    (env : Env) (f : RequestForm) (audioFile : List Nat) (cj tj : String)
    (cfg : ClinicConfig) (hist : List Turn)
    (ha : f.audio = some audioFile)
    (hc : f.clinicConfig = some cj) (hc0 : cj ≠ "")
    (ht : f.turns = some tj) (ht0 : tj ≠ "")
    (hpc : env.parseClinic cj = some cfg)
    (hpt : env.parseTurns tj = some hist)
    (hfail : env.transcribe audioFile = StageResult.fail
      ∨ (∃ rawText, env.transcribe audioFile = StageResult.ok rawText
          ∧ env.chat (mkMessages (buildPatientSystemPrompt cfg (modeOf f.mode))
              (hist ++ [⟨Role.staff, jsTrim rawText⟩])) = StageResult.fail)
      ∨ (∃ rawText content,
          env.transcribe audioFile = StageResult.ok rawText
          ∧ env.chat (mkMessages (buildPatientSystemPrompt cfg (modeOf f.mode))
              (hist ++ [⟨Role.staff, jsTrim rawText⟩])) = StageResult.ok content
          ∧ env.speech (patientTextOf content) = StageResult.fail)) :
    (POST env f).1 = serverErrorResponse
    ∧ statusOf serverErrorResponse = 500
    ∧ (∀ st pt ab ts, serverErrorResponse ≠ Response.ok st pt ab ts)
    ∧ ∀ s : ClientState,
        ((finishSend s (FetchOutcome.response (POST env f).1)).1).turns = s.turns := by
  have hmain : (POST env f).1 = serverErrorResponse := by
    rcases hfail with h | ⟨rawText, h1, h2⟩ | ⟨rawText, content, h1, h2, h3⟩
    · simp [POST, ha, hc, ht, hpc, hpt, h, strFalsy, hc0, ht0]
    · simp [POST, ha, hc, ht, hpc, hpt, h1, h2, strFalsy, hc0, ht0]
    · simp [POST, ha, hc, ht, hpc, hpt, h1, h2, h3, strFalsy, hc0, ht0]
  refine ⟨hmain, rfl, fun st pt ab ts => by simp [serverErrorResponse], fun s => ?_⟩
  rw [hmain]
  by_cases h0 : s.inFlight = 0
  · simp [finishSend, h0]
  · simp [finishSend, h0, serverErrorResponse]

/-- C2 witness: a concrete request whose transcription stage fails is
answered with the opaque 500 response, and a concrete busy client state
that receives it keeps its history unchanged. -/
theorem stageFailureYieldsOpaqueServerErrorWitness :
    (POST envFailT form0).1 = serverErrorResponse
    ∧ ((finishSend ⟨some cfg0, [⟨Role.staff, "Hello"⟩], false, true, none, true,
          false, 1, true, true⟩
        (FetchOutcome.response (POST envFailT form0).1)).1).turns
      = [⟨Role.staff, "Hello"⟩] := by
  have h := stageFailureYieldsOpaqueServerError envFailT form0 [1, 2, 3]
    "cfg-json" "turns-json" cfg0 [] rfl rfl (by decide) rfl (by decide)
    rfl rfl (Or.inl rfl)
  exact ⟨h.1, h.2.2.2 ⟨some cfg0, [⟨Role.staff, "Hello"⟩], false, true, none,
    true, false, 1, true, true⟩⟩

/-- C6: if the text-generation stage returns missing, empty, or
whitespace-only content, the resulting patientText is the fixed filler
phrase "Okay, go ahead."; patientText is never the empty string; and on
a successful invocation the returned patientText is exactly
patientTextOf applied to what the generation stage returned. -/
theorem emptyGenerationYieldsFillerPhrase :
    patientTextOf none = "Okay, go ahead."
    ∧ (∀ c : String, jsTrim c = "" → patientTextOf (some c) = "Okay, go ahead.")
    ∧ (∀ content : Option String, patientTextOf content ≠ "")
    ∧ ∀ (env : Env) (f : RequestForm) (audioFile : List Nat) (cj tj : String)
        (cfg : ClinicConfig) (hist : List Turn) (rawText : String)
        (content : Option String) (bytes : List Nat),
        f.audio = some audioFile →
        f.clinicConfig = some cj → cj ≠ "" →
        f.turns = some tj → tj ≠ "" →
        env.parseClinic cj = some cfg →
        env.parseTurns tj = some hist →
        env.transcribe audioFile = StageResult.ok rawText →
        env.chat (mkMessages (buildPatientSystemPrompt cfg (modeOf f.mode))
            (hist ++ [⟨Role.staff, jsTrim rawText⟩])) = StageResult.ok content →
        env.speech (patientTextOf content) = StageResult.ok bytes →
        (POST env f).1 = Response.ok (jsTrim rawText) (patientTextOf content)
          (base64Encode bytes)
          (hist ++ [⟨Role.staff, jsTrim rawText⟩,
            ⟨Role.patient, patientTextOf content⟩]) := by
  refine ⟨rfl, fun c hcr => by simp [patientTextOf, hcr], fun content => ?_,
    fun env f audioFile cj tj cfg hist rawText content bytes
        ha hc hc0 ht ht0 hpc hpt htr hch hsp => ?_⟩
  · cases content with
    | none => simp [patientTextOf]
    | some c =>
      simp only [patientTextOf]
      by_cases hcr : jsTrim c = ""
      · simp [hcr]
      · simp [hcr]
  · have h := POST_ok_eq env f audioFile cj tj cfg hist rawText content bytes
      ha hc hc0 ht ht0 hpc hpt htr hch hsp
    rw [h]

/-- C6 witness: whitespace-only generated content produces the filler
phrase and a non-empty patientText, and a concrete successful invocation
whose generation stage returns whitespace-only content answers with the
filler phrase as the patient turn. -/
theorem emptyGenerationYieldsFillerPhraseWitness :
    patientTextOf (some "   ") = "Okay, go ahead."
    ∧ patientTextOf (some "   ") ≠ ""
    ∧ (POST ⟨fun _ => some cfg0, fun _ => some [], fun _ => StageResult.ok "Hi",
        fun _ => StageResult.ok (some "   "), fun _ => StageResult.ok []⟩ form0).1
      = Response.ok "Hi" "Okay, go ahead." ""
          [⟨Role.staff, "Hi"⟩, ⟨Role.patient, "Okay, go ahead."⟩] := by
  have h := emptyGenerationYieldsFillerPhrase
  refine ⟨h.2.1 "   " (by decide), h.2.2.1 (some "   "), ?_⟩
  have h4 := h.2.2.2 ⟨fun _ => some cfg0, fun _ => some [],
    fun _ => StageResult.ok "Hi", fun _ => StageResult.ok (some "   "),
    fun _ => StageResult.ok []⟩ form0 [1, 2, 3] "cfg-json" "turns-json" cfg0 []
    "Hi" (some "   ") [] rfl rfl (by decide) rfl (by decide) rfl rfl rfl rfl rfl
  exact h4.trans (by decide)

/-! State-machine invariants. -/

/-- The mutual-exclusion invariant of the training page: the number of
in-flight pipeline calls is one exactly while isBusy, and while busy the
recorder is never active (so releasing the mic button cannot submit a
second call). -/
def FlightInv (s : ClientState) : Prop :=
  s.inFlight = (if s.isBusy then 1 else 0)
  ∧ (s.isBusy = true → s.recorderActive = false)

theorem flightInv_step (s : ClientState) (e : Ev) (h : FlightInv s) :
    FlightInv (step s e) := by
  obtain ⟨h1, h2⟩ := h
  cases e with
  | start =>
    by_cases hb : s.isBusy
    · simpa [step, handleEvent, handleStartTalking, hb] using ⟨h1, h2⟩
    · simp only [step, handleEvent, handleStartTalking, hb, if_false]
      unfold ensureRecorderAndStart FlightInv
      cases hcl : s.clinic with
      | none => simp [hb, h1]
      | some c =>
        simp only [hcl]
        by_cases hms : s.mediaSupported <;> by_cases hre : s.recorderExists <;>
          by_cases hmk : s.micOk <;> simp [hms, hre, hmk, hb, h1]
  | stop =>
    unfold step handleEvent stopStep FlightInv
    by_cases hre : s.recorderExists
    · by_cases hra : s.recorderActive
      · have hb : s.isBusy = false := by
          cases hbb : s.isBusy
          · rfl
          · exact absurd (h2 hbb) (by simp [hra])
        unfold beginSend
        cases hcl : s.clinic with
        | none => simp [hre, hra, hcl, h1, hb]
        | some c => simp [hre, hra, hcl, h1, hb]
      · simp [hre, hra, h1, h2]
    · refine ⟨?_, ?_⟩ <;> simp [hre, h1]
      exact h2
  | settled o =>
    unfold step handleEvent finishSend FlightInv
    by_cases h0 : s.inFlight = 0
    · simp only [h0, if_true, reduceIte]
      exact ⟨h0 ▸ h1, h2⟩
    · have hb : s.isBusy = true := by
        cases hbb : s.isBusy
        · rw [hbb] at h1
          simp at h1
          exact absurd h1 h0
        · rfl
      cases o with
      | networkError => simp [h0, hb, h1]
      | response r =>
        cases r with
        | error st m => simp [h0, hb, h1]
        | ok a b c d => simp [h0, hb, h1]

theorem flightInv_run (evs : List Ev) (s : ClientState) (h : FlightInv s) :
    FlightInv (runEvents s evs) := by
  induction evs generalizing s with
  | nil => exact h
  | cons e t ih => exact ih (step s e) (flightInv_step s e h)

/-- The invariant of a session with no clinic profile: nothing ever
records, no recorder is ever created, and no pipeline call is ever put
in flight. -/
def NoClinicInv (s : ClientState) : Prop :=
  s.clinic = none ∧ s.isRecording = false ∧ s.isBusy = false
  ∧ s.recorderExists = false ∧ s.recorderActive = false ∧ s.inFlight = 0

theorem noClinicInv_step (s : ClientState) (e : Ev) (h : NoClinicInv s) :
    NoClinicInv (step s e) := by
  obtain ⟨hcl, hrec, hb, hre, hra, hif⟩ := h
  cases e with
  | start =>
    simp [step, handleEvent, handleStartTalking, hb, ensureRecorderAndStart,
      hcl, NoClinicInv, hrec, hre, hra, hif]
  | stop =>
    simp [step, handleEvent, stopStep, hre, NoClinicInv, hcl, hb, hra, hif]
  | settled o =>
    simp [step, handleEvent, finishSend, hif, NoClinicInv, hcl, hrec, hb,
      hre, hra]

theorem noClinic_actions (s : ClientState) (e : Ev) (h : NoClinicInv s) :
    ClientAction.getUserMedia ∉ (handleEvent s e).2 := by
  obtain ⟨hcl, hrec, hb, hre, hra, hif⟩ := h
  cases e with
  | start =>
    simp [handleEvent, handleStartTalking, hb, ensureRecorderAndStart, hcl]
  | stop => simp [handleEvent, stopStep, hre]
  | settled o => simp [handleEvent, finishSend, hif]

theorem noClinic_foldA (evs : List Ev) :
    ∀ (s : ClientState) (acc : List ClientAction), NoClinicInv s →
      ClientAction.getUserMedia ∉ acc →
      ClientAction.getUserMedia ∉ (evs.foldl stepA (s, acc)).2 := by
  induction evs with
  | nil => intro s acc _ hacc; exact hacc
  | cons e t ih =>
    intro s acc hs hacc
    have hstep : NoClinicInv (handleEvent s e).1 := noClinicInv_step s e hs
    have hact : ClientAction.getUserMedia ∉ acc ++ (handleEvent s e).2 := by
      simp only [List.mem_append]
      rintro (h | h)
      · exact hacc h
      · exact noClinic_actions s e hs h
    exact ih (handleEvent s e).1 (acc ++ (handleEvent s e).2) hstep hact

theorem noClinicInv_run (evs : List Ev) (s : ClientState) (h : NoClinicInv s) :
    NoClinicInv (runEvents s evs) := by
  induction evs generalizing s with
  | nil => exact h
  | cons e t ih => exact ih (step s e) (noClinicInv_step s e h)

/-- C8: invoking begin capture while busy has no effect — the state is
unchanged and no action (recording start, microphone acquisition or
backend submission) is emitted — and consequently every state reachable
from a fresh session has at most one pipeline invocation in flight. -/
theorem busyStartHasNoEffectAndSingleFlight (s : ClientState)
    (hb : s.isBusy = true) :
    handleStartTalking s = (s, [])
    ∧ ∀ (clinic : Option ClinicConfig) (ms mo : Bool) (evs : List Ev),
        (runEvents (initState clinic ms mo) evs).inFlight ≤ 1 := by
  refine ⟨by simp [handleStartTalking, hb], fun clinic ms mo evs => ?_⟩
  have h := flightInv_run evs (initState clinic ms mo)
    ⟨rfl, by simp [initState]⟩
  rw [h.1]
  cases (runEvents (initState clinic ms mo) evs).isBusy <;> simp

/-- C8 witness: a concrete busy state is unaffected by begin capture,
and a concrete event sequence from a fresh session keeps the in-flight
count at most one. -/
theorem busyStartHasNoEffectAndSingleFlightWitness :
    handleStartTalking ⟨some cfg0, [], false, true, none, true, false, 1,
      true, true⟩
      = (⟨some cfg0, [], false, true, none, true, false, 1, true, true⟩, [])
    ∧ (runEvents (initState (some cfg0) true true)
        [Ev.start, Ev.stop, Ev.start,
         Ev.settled (FetchOutcome.response serverErrorResponse),
         Ev.start]).inFlight ≤ 1 := by
  have h := busyStartHasNoEffectAndSingleFlight
    ⟨some cfg0, [], false, true, none, true, false, 1, true, true⟩ rfl
  exact ⟨h.1, h.2 (some cfg0) true true
    [Ev.start, Ev.stop, Ev.start,
     Ev.settled (FetchOutcome.response serverErrorResponse), Ev.start]⟩

/-- C9: in a session with no clinic profile, recording never starts in
any reachable state, no microphone acquisition (getUserMedia) is ever
attempted, and every begin-capture attempt leaves isRecording false and
emits a redirect to the configuration screen without attempting
getUserMedia — the profile check comes first. -/
theorem noProfileBlocksCaptureBeforeMic (ms mo : Bool) (evs : List Ev) :
    (runEvents (initState none ms mo) evs).isRecording = false
    ∧ ClientAction.getUserMedia ∉ runActions (initState none ms mo) evs
    ∧ (handleStartTalking (runEvents (initState none ms mo) evs)).1.isRecording
        = false
    ∧ ClientAction.redirectTo "/setup"
        ∈ (handleStartTalking (runEvents (initState none ms mo) evs)).2
    ∧ ClientAction.getUserMedia
        ∉ (handleStartTalking (runEvents (initState none ms mo) evs)).2 := by
  have hinit : NoClinicInv (initState none ms mo) := by
    refine ⟨rfl, rfl, rfl, rfl, rfl, rfl⟩
  have hinv := noClinicInv_run evs (initState none ms mo) hinit
  obtain ⟨hcl, hrec, hb, hre, hra, hif⟩ := hinv
  refine ⟨hrec, noClinic_foldA evs (initState none ms mo) [] hinit (by simp),
    ?_, ?_, ?_⟩
  · simp [handleStartTalking, hb, ensureRecorderAndStart, hcl, hrec]
  · simp [handleStartTalking, hb, ensureRecorderAndStart, hcl]
  · simp [handleStartTalking, hb, ensureRecorderAndStart, hcl]

/-- C9 witness: a concrete no-profile session after a press-and-release
sequence has never started recording, emitted no getUserMedia, and a
further begin-capture attempt yields a redirect to setup and still no
getUserMedia. -/
theorem noProfileBlocksCaptureBeforeMicWitness :
    (runEvents (initState none true true) [Ev.start, Ev.stop]).isRecording = false
    ∧ ClientAction.getUserMedia ∉ runActions (initState none true true)
        [Ev.start, Ev.stop]
    ∧ ClientAction.redirectTo "/setup"
        ∈ (handleStartTalking (runEvents (initState none true true)
            [Ev.start, Ev.stop])).2 := by
  have h := noProfileBlocksCaptureBeforeMic true true [Ev.start, Ev.stop]
  exact ⟨h.1, h.2.1, h.2.2.2.1⟩

end VCT
